import Mathlib

/-!
Verification development for the MarbleLens scene editor
(`src/App.tsx`, `src/components/SceneViewer.tsx`, `src/components/ControlPanel.tsx`,
`src/services/geminiService.ts`).

The interaction layer is shallowly embedded: the engine's float vectors are
modelled over `ℚ` (the drag / orbit arithmetic is exact rational arithmetic up
to floating-point rounding), asynchronous completions are modelled as explicit
event lists folded over the state, and React state records become Lean
structures. Every definition is translated from the source; line references
point into the concatenated `src/App.tsx` of this snapshot.
-/

namespace Marble

/-- A 3-component vector (`pc.Vec3`), components modelled as rationals. -/
structure Vec3 where
  x : ℚ
  y : ℚ
  z : ℚ
deriving DecidableEq, Repr

namespace Vec3

/-- Componentwise addition (`pc.Vec3.add`). -/
def add (a b : Vec3) : Vec3 := ⟨a.x + b.x, a.y + b.y, a.z + b.z⟩

/-- Componentwise subtraction (`pc.Vec3.sub` / `sub2`). -/
def sub (a b : Vec3) : Vec3 := ⟨a.x - b.x, a.y - b.y, a.z - b.z⟩

/-- Scalar multiplication (`pc.Vec3.mulScalar`). -/
def smul (c : ℚ) (a : Vec3) : Vec3 := ⟨c * a.x, c * a.y, c * a.z⟩

/-- Dot product (`pc.Vec3.dot`). -/
def dot (a b : Vec3) : ℚ := a.x * b.x + a.y * b.y + a.z * b.z

/-- The zero vector (`new pc.Vec3()`). -/
def zero : Vec3 := ⟨0, 0, 0⟩

/-- Squared length of a vector; `pc.Vec3.length()` is its square root. -/
def lengthSq (a : Vec3) : ℚ := dot a a

end Vec3

/-- An axis identifier, the `dir` part of the gizmo tag strings
`tx`/`ty`/`tz`/`rx`/… (`type Axis = 'x' | 'y' | 'z'` in `src/types.ts`). -/
inductive Axis where
  | x : Axis
  | y : Axis
  | z : Axis
deriving DecidableEq, Repr

/-- The gizmo tool mode, the leading letter of the gizmo tag strings
(`type GizmoMode = 'translate' | 'rotate' | 'scale'` in `src/types.ts`). -/
inductive GizmoMode where
  | translate : GizmoMode
  | rotate : GizmoMode
  | scale : GizmoMode
deriving DecidableEq, Repr

/-- The unit vector along an axis, as built in `onMouseMove`
(`axisVec.set(1,0,0)` / `(0,1,0)` / `(0,0,1)`, App.tsx lines 1470–1473). -/
def unitAxis : Axis → Vec3
  | Axis.x => ⟨1, 0, 0⟩
  | Axis.y => ⟨0, 1, 0⟩
  | Axis.z => ⟨0, 0, 1⟩

/-- Read one component of a vector by axis name. -/
def comp : Axis → Vec3 → ℚ
  | Axis.x, v => v.x
  | Axis.y, v => v.y
  | Axis.z, v => v.z

/-- Replace one component of a vector by axis name (the clone-then-mutate
updates `newRot.x += angle`, `newScale.x *= scaleFactor` write one component
of a copy of the drag-start value). -/
def setComp : Axis → ℚ → Vec3 → Vec3
  | Axis.x, q, v => ⟨q, v.y, v.z⟩
  | Axis.y, q, v => ⟨v.x, q, v.z⟩
  | Axis.z, q, v => ⟨v.x, v.y, q⟩

/-- A 3×3 matrix acting on `Vec3`; models the gizmo rotation
`gizmoRootRef.current.getRotation()` (a quaternion in the engine) through its
linear action `transformVector` (App.tsx line 1474). -/
structure Mat3 where
  m00 : ℚ
  m01 : ℚ
  m02 : ℚ
  m10 : ℚ
  m11 : ℚ
  m12 : ℚ
  m20 : ℚ
  m21 : ℚ
  m22 : ℚ
deriving DecidableEq, Repr

namespace Mat3

/-- Matrix–vector product (`pc.Quat.transformVector` as a linear map). -/
def mulVec (M : Mat3) (v : Vec3) : Vec3 :=
  ⟨M.m00 * v.x + M.m01 * v.y + M.m02 * v.z,
   M.m10 * v.x + M.m11 * v.y + M.m12 * v.z,
   M.m20 * v.x + M.m21 * v.y + M.m22 * v.z⟩

/-- The identity rotation. -/
def id3 : Mat3 := ⟨1, 0, 0, 0, 1, 0, 0, 0, 1⟩

/-- The columns (images of the coordinate axes) are pairwise orthogonal.
Every quaternion rotation, hence every value of
`gizmoRootRef.current.getRotation()`, satisfies this. -/
def colsOrthogonal (M : Mat3) : Prop :=
  Vec3.dot (M.mulVec (unitAxis Axis.x)) (M.mulVec (unitAxis Axis.y)) = 0 ∧
  Vec3.dot (M.mulVec (unitAxis Axis.x)) (M.mulVec (unitAxis Axis.z)) = 0 ∧
  Vec3.dot (M.mulVec (unitAxis Axis.y)) (M.mulVec (unitAxis Axis.z)) = 0

instance (M : Mat3) : Decidable (colsOrthogonal M) := by
  unfold colsOrthogonal; infer_instance

end Mat3

/-- Rotation by 90° about the world z axis: it maps the x axis to the y axis.
A target rotated this way (e.g. via the rotate gizmo or the numeric rotation
fields) gives the gizmo root exactly this rotation. -/
def rotZ90 : Mat3 := ⟨0, -1, 0, 1, 0, 0, 0, 0, 1⟩

/-- The local transform of the drag target: position, Euler rotation
(degrees) and non-uniform scale, as read and written through
`getPosition`/`setPosition`, `getLocalEulerAngles`/`setLocalEulerAngles`,
`getLocalScale`/`setLocalScale`. -/
structure Transform3 where
  position : Vec3
  rotation : Vec3
  scale : Vec3
deriving DecidableEq, Repr

/-- The scalar drag delta of `onMouseMove` (App.tsx lines 1469–1477):
the world-space axis direction is the unit axis transformed by the gizmo
rotation, and the vector from the drag anchor to the current ray/plane hit
point is projected onto it (`axisVec.dot(deltaVec)`). -/
def projectedDelta (gizmoRot : Mat3) (dir : Axis) (dragStartPoint hitPoint : Vec3) : ℚ :=
  Vec3.dot (gizmoRot.mulVec (unitAxis dir)) (Vec3.sub hitPoint dragStartPoint)

/-- The translate branch of a processed `onMouseMove` drag event
(App.tsx lines 1479–1483): `newPos = dragStartValue + projectedDelta ·
axisVec`, where `dragStartPoint` and `dragStartValue` are the refs frozen at
`onMouseDown`. -/
def translateDragPos (gizmoRot : Mat3) (dir : Axis)
    (dragStartPoint dragStartValue hitPoint : Vec3) : Vec3 :=
  Vec3.add dragStartValue
    (Vec3.smul (projectedDelta gizmoRot dir dragStartPoint hitPoint)
      (gizmoRot.mulVec (unitAxis dir)))

/-- The rotate branch: `angle = projectedDelta * 20`; the constrained Euler
angle of the drag-start rotation is incremented by it (App.tsx 1484–1492). -/
def rotateDragEuler (gizmoRot : Mat3) (dir : Axis)
    (dragStartPoint dragStartValue hitPoint : Vec3) : Vec3 :=
  setComp dir
    (comp dir dragStartValue + projectedDelta gizmoRot dir dragStartPoint hitPoint * 20)
    dragStartValue

/-- The scale branch: `scaleFactor = 1 + projectedDelta * 1`; the constrained
component of the drag-start scale is multiplied by it (App.tsx 1493–1501). -/
def scaleDragScale (gizmoRot : Mat3) (dir : Axis)
    (dragStartPoint dragStartValue hitPoint : Vec3) : Vec3 :=
  setComp dir
    (comp dir dragStartValue * (1 + projectedDelta gizmoRot dir dragStartPoint hitPoint * 1))
    dragStartValue

/-- Dispatch of one drag move on the tool mode (the leading letter of the
dragged-axis tag). -/
def applyGizmoDrag (mode : GizmoMode) (gizmoRot : Mat3) (dir : Axis)
    (dragStartPoint dragStartValue hitPoint : Vec3) (t : Transform3) : Transform3 :=
  match mode with
  | GizmoMode.translate =>
      { t with position := translateDragPos gizmoRot dir dragStartPoint dragStartValue hitPoint }
  | GizmoMode.rotate =>
      { t with rotation := rotateDragEuler gizmoRot dir dragStartPoint dragStartValue hitPoint }
  | GizmoMode.scale =>
      { t with scale := scaleDragScale gizmoRot dir dragStartPoint dragStartValue hitPoint }

/-- A whole drag gesture: the sequence of ray/plane hit points of the
successive `onMouseMove` events is folded over the target transform, with the
anchor point and drag-start value fixed at `onMouseDown` (App.tsx lines
1545–1554). -/
def gizmoDragRun (mode : GizmoMode) (gizmoRot : Mat3) (dir : Axis)
    (dragStartPoint dragStartValue : Vec3) (hits : List Vec3) (t : Transform3) : Transform3 :=
  hits.foldl (fun cur hit => applyGizmoDrag mode gizmoRot dir dragStartPoint dragStartValue hit cur) t

/-- The orbit-mode camera parameters `orbitParamsRef.current`
(App.tsx line 810): azimuth `alpha` and elevation `beta` in degrees, orbit
`radius`, and the pivot point. -/
structure OrbitParams where
  alpha : ℚ
  beta : ℚ
  radius : ℚ
  targetPivot : Vec3
deriving DecidableEq, Repr

/-- `pc.math.clamp(value, min, max)`: returns `max` when `value ≥ max`,
`min` when `value ≤ min`, else `value`. -/
def pcClamp (value lo hi : ℚ) : ℚ :=
  if hi ≤ value then hi else if value ≤ lo then lo else value

/-- One `onMouseMove` event in orbit mode (App.tsx lines 1428–1432):
`alpha -= dx * 0.4`, `beta += dy * 0.4`,
`beta = pc.math.clamp(beta, -89, 89)`. -/
def orbitMoveStep (p : OrbitParams) (dx dy : ℚ) : OrbitParams :=
  { p with
    alpha := p.alpha - dx * (2 / 5),
    beta := pcClamp (p.beta + dy * (2 / 5)) (-89) 89 }

/-- A sequence of orbit pointer-move deltas processed while orbiting. -/
def orbitMoveRun (p : OrbitParams) (moves : List (ℚ × ℚ)) : OrbitParams :=
  moves.foldl (fun cur mv => orbitMoveStep cur mv.1 mv.2) p

/-- JavaScript `a || b` on a number: `0` is falsy, so `(radius || 0.001)`
substitutes the fallback exactly when the radius is zero. -/
def jsOrDefault (r fallback : ℚ) : ℚ := if r = 0 then fallback else r

/-- The denominator of the elevation computation
`Math.asin(vec.y / (radius || 0.001))` in `syncOrbitParamsToCamera`
(App.tsx line 914) and in the orbit seeding of `onMouseDown`
(App.tsx lines 1597 and 1612). -/
def orbitBetaDenom (radius : ℚ) : ℚ := jsOrDefault radius (1 / 1000)

/-- A character sub-kind (`type: '2d' | '3d'` in `src/types.ts`). -/
inductive CharKind where
  | twoD : CharKind
  | threeD : CharKind
deriving DecidableEq, BEq, Repr

/-- A character list entry (`interface Character` in `src/types.ts`). -/
structure Character where
  id : String
  kind : CharKind
  url : String
  name : String
deriving DecidableEq, Repr

/-- A selection target (`type TargetType = 'scene' | 'character'`). -/
inductive TargetType where
  | scene : TargetType
  | character : TargetType
deriving DecidableEq, BEq, Repr

/-- Lowercasing of an ASCII character (JS `toLowerCase` restricted to the
ASCII range, which covers the file-name suffix checks). -/
def charLower (c : Char) : Char :=
  if 65 ≤ c.toNat ∧ c.toNat ≤ 90 then Char.ofNat (c.toNat + 32) else c

/-- JS `String.prototype.toLowerCase`, on the character list. -/
def strToLower (s : String) : String := String.mk (s.data.map charLower)

/-- JS `String.prototype.endsWith`, on the character list: the last
`suffix.length` characters equal the suffix. -/
def strEndsWith (s suffix : String) : Bool :=
  s.data.drop (s.data.length - suffix.data.length) == suffix.data

/-- JS `String.prototype.startsWith`, on the character list: the first
`pre.length` characters equal `pre`. -/
def strStartsWith (s pre : String) : Bool :=
  s.data.take pre.data.length == pre.data

/-- The SceneViewer selection state relevant to character removal: the keys
of `characterEntitiesMapRef.current`, the `activeCharacterId` state and the
`selectedTarget` state. -/
structure ViewerSelection where
  charEntityIds : List String
  activeCharacterId : Option String
  selectedTarget : Option TargetType
deriving DecidableEq, Repr

/-- `handleRemoveCharacter` (App.tsx lines 118–120):
`setCharacters(prev => prev.filter(c => c.id !== id))`. -/
def handleRemoveCharacter (id : String) (characters : List Character) : List Character :=
  characters.filter (fun c => c.id != id)

/-- The removal half of the character reconcile effect (App.tsx lines
1712–1723): every entity whose id is no longer in the character list is
destroyed and dropped from the map; if it was the `activeCharacterId`, that
id is cleared, and if additionally `selectedTarget === 'character'`, the
selection target is cleared. State reads inside the loop see the render-time
values, so the loop is equivalent to this batch update. -/
def reconcileRemovals (characters : List Character) (s : ViewerSelection) : ViewerSelection :=
  let currentIds := characters.map (fun c => c.id)
  let removed := s.charEntityIds.filter (fun i => !(currentIds.contains i))
  let hitActive := match s.activeCharacterId with
    | some a => removed.contains a
    | none => false
  { charEntityIds := s.charEntityIds.filter (fun i => currentIds.contains i),
    activeCharacterId := if hitActive then none else s.activeCharacterId,
    selectedTarget :=
      if hitActive && decide (s.selectedTarget = some TargetType.character) then none
      else s.selectedTarget }

/-- The App-level scene-load state: the `splatUrl` React state and the
`generationState.error` slot that load failures write into. -/
structure SceneLoadState where
  splatUrl : Option String
  loadError : Option String
deriving DecidableEq, Repr

/-- The success continuation of `handleUploadSplat` (App.tsx line 74):
`setSplatUrl(url)` is called unconditionally when an upload's asynchronous
decompression finishes — there is no check that this upload is still the
most recently requested one. -/
def applySplatUploadSuccess (s : SceneLoadState) (url : String) : SceneLoadState :=
  { s with splatUrl := some url }

/-- Several uploads whose asynchronous loads complete in the given order:
each completion runs the unguarded `setSplatUrl`. -/
def runSplatUploadCompletions (s : SceneLoadState) (urls : List String) : SceneLoadState :=
  urls.foldl applySplatUploadSuccess s

/-- The inner-file search of the `.spz` branch of `handleUploadSplat`
(App.tsx lines 53–57): first a name ending in `.splat` or `.ksplat`, else
(JS `||` on the `undefined` result) a name ending in `.ply`. -/
def findInnerFile (names : List String) : Option String :=
  match names.find? (fun n =>
      strEndsWith (strToLower n) ".splat" || strEndsWith (strToLower n) ".ksplat") with
  | some f => some f
  | none => names.find? (fun n => strEndsWith (strToLower n) ".ply")

/-- The `.spz` branch of `handleUploadSplat` (App.tsx lines 38–82) given the
names inside the archive. On entry the error slot is cleared (line 35). If no
recognized inner file exists, the promise rejects with
`No valid .splat or .ply file found inside SPZ archive`; the catch block sets
the error to `Failed to load file: ` + message and clears the scene URL
(lines 75–79). Otherwise the blob URL of the inner file becomes the scene
URL. -/
def handleUploadSplatSpz (names : List String) (innerUrl : String → String)
    (s : SceneLoadState) : SceneLoadState :=
  match findInnerFile names with
  | none =>
      { s with
        splatUrl := none,
        loadError := some "Failed to load file: No valid .splat or .ply file found inside SPZ archive" }
  | some f => { s with splatUrl := some (innerUrl f), loadError := none }

/-- The generation state (`interface GenerationState` in `src/types.ts`). -/
structure GenerationState where
  isGenerating : Bool
  generatedImage : Option String
  error : Option String
deriving DecidableEq, Repr

/-- The synchronous prefix of `handleGenerate` (App.tsx lines 132–141):
it captures the scene; if the snapshot is falsy (`null`, modelled as `none`,
or the empty string) it only sets the error and returns without touching the
busy flag and without calling the service; otherwise it raises the busy flag
and issues the service call with the snapshot and prompt. The second
component is the argument pair of the issued `generateCharacterInScene`
call, if any. -/
def handleGenerate (capture : Option String) (prompt : String)
    (prev : GenerationState) : GenerationState × Option (String × String) :=
  match capture with
  | none => ({ prev with error := some "Failed to capture 3D scene." }, none)
  | some snap =>
      if snap == "" then
        ({ prev with error := some "Failed to capture 3D scene." }, none)
      else
        ({ isGenerating := true, generatedImage := none, error := none }, some (snap, prompt))

/-- JS `!prompt.trim()`: the trimmed prompt is the empty string. -/
def promptIsBlank (prompt : String) : Bool := prompt.trim == ""

/-- The `disabled` expression of the ControlPanel submit button
(`disabled={isGenerating || !prompt.trim()}`); the prompt text input carries
`disabled={isGenerating}` as well. -/
def submitDisabled (isGenerating : Bool) (prompt : String) : Bool :=
  isGenerating || promptIsBlank prompt

/-- `handleSubmit` of ControlPanel: `if (!prompt.trim()) return;
onGenerate(prompt)`. The result is the prompt passed to `onGenerate`, if
any. -/
def handleSubmit (prompt : String) : Option String :=
  if promptIsBlank prompt then none else some prompt

/-- A form-submission attempt against the panel: the browser refuses to
submit a form whose sole (default) submit button is disabled, so
`handleSubmit` only runs when `submitDisabled` is false. -/
def attemptPanelSubmit (isGenerating : Bool) (prompt : String) : Option String :=
  if submitDisabled isGenerating prompt then none else handleSubmit prompt

/-- An uploaded file as seen by `handleUploadCharacter`: its `name` and its
MIME `file.type`. -/
structure UploadFile where
  name : String
  mime : String
deriving DecidableEq, Repr

/-- `handleUploadCharacter` (App.tsx lines 86–116). `is3D` checks the
lowercased name for `.glb`/`.gltf`; `isImage` checks the MIME type for the
`image/` prefix. A 3D file appends a `3d` character with its object URL, an
image appends a `2d` character with its data URL (via the FileReader
continuation); any other file falls through both branches and nothing
happens. The second component is the error channel: no branch writes an
error. -/
def handleUploadCharacter (f : UploadFile) (newId objUrl dataUrl : String)
    (characters : List Character) : List Character × Option String :=
  let is3D := strEndsWith (strToLower f.name) ".glb" || strEndsWith (strToLower f.name) ".gltf"
  let isImage := strStartsWith f.mime "image/"
  if is3D then
    (characters ++ [{ id := newId, kind := CharKind.threeD, url := objUrl, name := f.name }], none)
  else if isImage then
    (characters ++ [{ id := newId, kind := CharKind.twoD, url := dataUrl, name := f.name }], none)
  else
    (characters, none)

/- ------------------------------------------------------------------ -/
/- Helper lemmas                                                      -/
/- ------------------------------------------------------------------ -/

theorem Vec3.dot_comm (a b : Vec3) : Vec3.dot a b = Vec3.dot b a := by
  simp only [Vec3.dot]; ring

theorem Vec3.dot_smul_left (c : ℚ) (a b : Vec3) :
    Vec3.dot (Vec3.smul c a) b = c * Vec3.dot a b := by
  simp only [Vec3.dot, Vec3.smul]; ring

theorem Vec3.sub_add_cancel_left (a b : Vec3) : Vec3.sub (Vec3.add a b) a = b := by
  cases a; cases b
  simp only [Vec3.add, Vec3.sub, Vec3.mk.injEq]
  refine ⟨by ring, by ring, by ring⟩

theorem Vec3.sub_self (a : Vec3) : Vec3.sub a a = Vec3.zero := by
  cases a
  simp only [Vec3.sub, Vec3.zero, Vec3.mk.injEq]
  refine ⟨by ring, by ring, by ring⟩

theorem Vec3.dot_zero_left (b : Vec3) : Vec3.dot Vec3.zero b = 0 := by
  simp only [Vec3.dot, Vec3.zero]; ring

theorem Mat3.id3_mulVec (v : Vec3) : Mat3.id3.mulVec v = v := by
  cases v
  simp only [Mat3.mulVec, Mat3.id3, Vec3.mk.injEq]
  refine ⟨by ring, by ring, by ring⟩

theorem Mat3.colsOrthogonal_pair {M : Mat3} (h : M.colsOrthogonal) {i j : Axis}
    (hij : i ≠ j) :
    Vec3.dot (M.mulVec (unitAxis i)) (M.mulVec (unitAxis j)) = 0 := by
  obtain ⟨hxy, hxz, hyz⟩ := h
  cases i <;> cases j <;>
    first
      | exact absurd rfl hij
      | assumption
      | (rw [Vec3.dot_comm]; assumption)

theorem comp_add (j : Axis) (a b : Vec3) :
    comp j (Vec3.add a b) = comp j a + comp j b := by
  cases j <;> rfl

theorem comp_smul (j : Axis) (c : ℚ) (a : Vec3) :
    comp j (Vec3.smul c a) = c * comp j a := by
  cases j <;> rfl

theorem comp_unitAxis_ne {j dir : Axis} (h : j ≠ dir) : comp j (unitAxis dir) = 0 := by
  cases j <;> cases dir <;> first | exact absurd rfl h | rfl

/-- Invariance of a predicate under a left fold. -/
theorem foldl_inv {α β : Type} (f : α → β → α) (P : α → Prop)
    (l : List β) (init : α) (h0 : P init) (hstep : ∀ a b, P a → P (f a b)) :
    P (l.foldl f init) := by
  induction l generalizing init with
  | nil => exact h0
  | cons b l ih => exact ih (f init b) (hstep init b h0)

theorem pcClamp_mem (value lo hi : ℚ) (h : lo ≤ hi) :
    lo ≤ pcClamp value lo hi ∧ pcClamp value lo hi ≤ hi := by
  unfold pcClamp
  split_ifs <;> constructor <;> linarith

/-- An angle of at most 89 degrees in absolute value has positive cosine. -/
theorem cos_pos_of_deg_bounds (q : ℚ) (h1 : -89 ≤ q) (h2 : q ≤ 89) :
    0 < Real.cos ((q : ℝ) * Real.pi / 180) := by
  have hq1 : (-89 : ℝ) ≤ (q : ℝ) := by exact_mod_cast h1
  have hq2 : ((q : ℝ)) ≤ 89 := by exact_mod_cast h2
  have hpi := Real.pi_pos
  apply Real.cos_pos_of_mem_Ioo
  constructor
  · have hnn : (0 : ℝ) ≤ ((q : ℝ) + 89) * Real.pi := mul_nonneg (by linarith) hpi.le
    nlinarith [hnn, hpi]
  · have hnn : (0 : ℝ) ≤ (89 - (q : ℝ)) * Real.pi := mul_nonneg (by linarith) hpi.le
    nlinarith [hnn, hpi]

/- ------------------------------------------------------------------ -/
/- C1 — translate-axis drags and position components                   -/
/- ------------------------------------------------------------------ -/

/-- C1, counterexample to the claim as stated: with the gizmo rotated 90°
about z (so the gizmo x axis points along world y), a translate-x drag
changes the world y component of the target position, so the two
non-constrained position components are NOT always unchanged. -/
theorem translate_drag_world_component_counterexample :
    comp Axis.y (gizmoDragRun GizmoMode.translate rotZ90 Axis.x Vec3.zero Vec3.zero
      [Vec3.mk 0 1 0]
      (Transform3.mk Vec3.zero Vec3.zero (Vec3.mk 1 1 1))).position ≠
    comp Axis.y (Transform3.mk Vec3.zero Vec3.zero (Vec3.mk 1 1 1)).position := by
  norm_num [gizmoDragRun, applyGizmoDrag, translateDragPos, projectedDelta,
    Vec3.dot, Vec3.sub, Vec3.add, Vec3.smul, Mat3.mulVec, unitAxis, rotZ90, Vec3.zero, comp]

/-- C1 (amended). For every drag sequence on a translate-axis gizmo handle,
the displacement of the target position from the drag-start position is
orthogonal to the two gizmo-frame axes other than the constrained one: the
position components taken along the gizmo's rotated axes are unchanged off
the constrained axis, and when the gizmo rotation is the identity the two
non-constrained world position components are unchanged, which is the
claim's original reading. A translate drag also leaves rotation and scale
untouched. -/
theorem translate_drag_gizmo_frame_components
    (R : Mat3) (dir j : Axis) (dragStartPoint dragStartValue : Vec3)
    (hits : List Vec3) (t : Transform3)
    (hR : R.colsOrthogonal) (hj : j ≠ dir) (ht : t.position = dragStartValue) :
    Vec3.dot
      (Vec3.sub
        (gizmoDragRun GizmoMode.translate R dir dragStartPoint dragStartValue hits t).position
        dragStartValue)
      (R.mulVec (unitAxis j)) = 0 ∧
    (gizmoDragRun GizmoMode.translate R dir dragStartPoint dragStartValue hits t).rotation
      = t.rotation ∧
    (gizmoDragRun GizmoMode.translate R dir dragStartPoint dragStartValue hits t).scale
      = t.scale ∧
    (R = Mat3.id3 →
      comp j (gizmoDragRun GizmoMode.translate R dir dragStartPoint dragStartValue hits t).position
        = comp j t.position) := by
  have h0 : Vec3.dot (Vec3.sub t.position dragStartValue) (R.mulVec (unitAxis j)) = 0 ∧
      t.rotation = t.rotation ∧ t.scale = t.scale ∧
      (R = Mat3.id3 → comp j t.position = comp j dragStartValue) := by
    refine ⟨?_, rfl, rfl, fun _ => by rw [ht]⟩
    rw [ht, Vec3.sub_self, Vec3.dot_zero_left]
  have hstep : ∀ (cur : Transform3) (hit : Vec3),
      (Vec3.dot (Vec3.sub cur.position dragStartValue) (R.mulVec (unitAxis j)) = 0 ∧
        cur.rotation = t.rotation ∧ cur.scale = t.scale ∧
        (R = Mat3.id3 → comp j cur.position = comp j dragStartValue)) →
      (Vec3.dot
          (Vec3.sub
            (applyGizmoDrag GizmoMode.translate R dir dragStartPoint dragStartValue hit cur).position
            dragStartValue)
          (R.mulVec (unitAxis j)) = 0 ∧
        (applyGizmoDrag GizmoMode.translate R dir dragStartPoint dragStartValue hit cur).rotation
          = t.rotation ∧
        (applyGizmoDrag GizmoMode.translate R dir dragStartPoint dragStartValue hit cur).scale
          = t.scale ∧
        (R = Mat3.id3 →
          comp j
            (applyGizmoDrag GizmoMode.translate R dir dragStartPoint dragStartValue hit cur).position
            = comp j dragStartValue)) := by
    intro cur hit hcur
    refine ⟨?_, hcur.2.1, hcur.2.2.1, ?_⟩
    · show Vec3.dot
        (Vec3.sub (translateDragPos R dir dragStartPoint dragStartValue hit) dragStartValue)
        (R.mulVec (unitAxis j)) = 0
      unfold translateDragPos
      rw [Vec3.sub_add_cancel_left, Vec3.dot_smul_left,
        Mat3.colsOrthogonal_pair hR (Ne.symm hj), mul_zero]
    · intro hid
      show comp j (translateDragPos R dir dragStartPoint dragStartValue hit) = comp j dragStartValue
      unfold translateDragPos
      rw [hid, Mat3.id3_mulVec, comp_add, comp_smul, comp_unitAxis_ne hj, mul_zero, add_zero]
  have key := foldl_inv
    (fun cur hit => applyGizmoDrag GizmoMode.translate R dir dragStartPoint dragStartValue hit cur)
    (fun cur =>
      Vec3.dot (Vec3.sub cur.position dragStartValue) (R.mulVec (unitAxis j)) = 0 ∧
      cur.rotation = t.rotation ∧ cur.scale = t.scale ∧
      (R = Mat3.id3 → comp j cur.position = comp j dragStartValue))
    hits t h0 hstep
  simp only [gizmoDragRun]
  refine ⟨key.1, key.2.1, key.2.2.1, fun hid => ?_⟩
  rw [key.2.2.2 hid, ht]

/-- Witness for C1 at a concrete rotated gizmo and one-move drag. -/
theorem translate_drag_gizmo_frame_components_witness :
    Mat3.colsOrthogonal rotZ90 ∧ Axis.y ≠ Axis.x ∧
    (Vec3.dot
      (Vec3.sub
        (gizmoDragRun GizmoMode.translate rotZ90 Axis.x Vec3.zero Vec3.zero
          [Vec3.mk 0 1 0] (Transform3.mk Vec3.zero Vec3.zero (Vec3.mk 1 1 1))).position
        Vec3.zero)
      (rotZ90.mulVec (unitAxis Axis.y)) = 0 ∧
    (gizmoDragRun GizmoMode.translate rotZ90 Axis.x Vec3.zero Vec3.zero
      [Vec3.mk 0 1 0] (Transform3.mk Vec3.zero Vec3.zero (Vec3.mk 1 1 1))).rotation
      = (Transform3.mk Vec3.zero Vec3.zero (Vec3.mk 1 1 1)).rotation ∧
    (gizmoDragRun GizmoMode.translate rotZ90 Axis.x Vec3.zero Vec3.zero
      [Vec3.mk 0 1 0] (Transform3.mk Vec3.zero Vec3.zero (Vec3.mk 1 1 1))).scale
      = (Transform3.mk Vec3.zero Vec3.zero (Vec3.mk 1 1 1)).scale ∧
    (rotZ90 = Mat3.id3 →
      comp Axis.y
        (gizmoDragRun GizmoMode.translate rotZ90 Axis.x Vec3.zero Vec3.zero
          [Vec3.mk 0 1 0] (Transform3.mk Vec3.zero Vec3.zero (Vec3.mk 1 1 1))).position
        = comp Axis.y (Transform3.mk Vec3.zero Vec3.zero (Vec3.mk 1 1 1)).position)) :=
  ⟨by norm_num [Mat3.colsOrthogonal, Mat3.mulVec, unitAxis, Vec3.dot, rotZ90], by decide,
    translate_drag_gizmo_frame_components rotZ90 Axis.x Axis.y Vec3.zero Vec3.zero
      [Vec3.mk 0 1 0] (Transform3.mk Vec3.zero Vec3.zero (Vec3.mk 1 1 1))
      (by norm_num [Mat3.colsOrthogonal, Mat3.mulVec, unitAxis, Vec3.dot, rotZ90])
      (by decide) rfl⟩

/- ------------------------------------------------------------------ -/
/- C8 — scale-axis drag formula                                        -/
/- ------------------------------------------------------------------ -/

/-- C8 (confirmed). For every drag move on a scale-axis gizmo handle with
projected scalar delta d, the new scale on the constrained axis equals the
drag-start scale multiplied by `1 + d * 1`, and the other two scale
components are unchanged. -/
theorem scale_drag_axis_formula
    (R : Mat3) (dir : Axis) (dragStartPoint dragStartValue hitPoint : Vec3)
    (t : Transform3) (ht : t.scale = dragStartValue) :
    comp dir (applyGizmoDrag GizmoMode.scale R dir dragStartPoint dragStartValue hitPoint t).scale
      = comp dir t.scale * (1 + projectedDelta R dir dragStartPoint hitPoint * 1) ∧
    ∀ j : Axis, j ≠ dir →
      comp j (applyGizmoDrag GizmoMode.scale R dir dragStartPoint dragStartValue hitPoint t).scale
        = comp j t.scale := by
  rw [ht]
  constructor
  · show comp dir (scaleDragScale R dir dragStartPoint dragStartValue hitPoint) = _
    cases dir <;> rfl
  · intro j hj
    show comp j (scaleDragScale R dir dragStartPoint dragStartValue hitPoint) = _
    cases dir <;> cases j <;> first | exact absurd rfl hj | rfl

/-- Witness for C8 at a concrete drag: start scale (2,5,7), projected delta
3, so the x scale becomes 2·(1+3) = 8 and y, z stay 5 and 7. -/
theorem scale_drag_axis_formula_witness :
    comp Axis.x (applyGizmoDrag GizmoMode.scale Mat3.id3 Axis.x Vec3.zero (Vec3.mk 2 5 7)
        (Vec3.mk 3 0 0) (Transform3.mk Vec3.zero Vec3.zero (Vec3.mk 2 5 7))).scale
      = comp Axis.x (Transform3.mk Vec3.zero Vec3.zero (Vec3.mk 2 5 7)).scale
        * (1 + projectedDelta Mat3.id3 Axis.x Vec3.zero (Vec3.mk 3 0 0) * 1) ∧
    ∀ j : Axis, j ≠ Axis.x →
      comp j (applyGizmoDrag GizmoMode.scale Mat3.id3 Axis.x Vec3.zero (Vec3.mk 2 5 7)
          (Vec3.mk 3 0 0) (Transform3.mk Vec3.zero Vec3.zero (Vec3.mk 2 5 7))).scale
        = comp j (Transform3.mk Vec3.zero Vec3.zero (Vec3.mk 2 5 7)).scale :=
  scale_drag_axis_formula Mat3.id3 Axis.x Vec3.zero (Vec3.mk 2 5 7) (Vec3.mk 3 0 0)
    (Transform3.mk Vec3.zero Vec3.zero (Vec3.mk 2 5 7)) rfl

/- ------------------------------------------------------------------ -/
/- C5 — orbit elevation clamp                                          -/
/- ------------------------------------------------------------------ -/

/-- C5 (confirmed). For every nonempty sequence of pointer-move deltas
processed while orbiting, the resulting elevation `beta` is clamped to
[-89°, 89°] no matter how large any input delta is, and the cosine of the
resulting elevation is strictly positive — the camera stays strictly away
from the poles, so the up direction used by `lookAt` (whose vertical weight
is `cos beta`) never changes sign and no flip occurs. -/
theorem orbit_elevation_clamped_no_flip (p : OrbitParams) (moves : List (ℚ × ℚ))
    (hmoves : moves ≠ []) :
    -89 ≤ (orbitMoveRun p moves).beta ∧ (orbitMoveRun p moves).beta ≤ 89 ∧
    0 < Real.cos (((orbitMoveRun p moves).beta : ℝ) * Real.pi / 180) := by
  have hstepmem : ∀ (q : OrbitParams) (mv : ℚ × ℚ),
      -89 ≤ (orbitMoveStep q mv.1 mv.2).beta ∧ (orbitMoveStep q mv.1 mv.2).beta ≤ 89 := by
    intro q mv
    show -89 ≤ pcClamp (q.beta + mv.2 * (2 / 5)) (-89) 89 ∧
      pcClamp (q.beta + mv.2 * (2 / 5)) (-89) 89 ≤ 89
    exact pcClamp_mem _ _ _ (by norm_num)
  obtain ⟨m, rest, rfl⟩ : ∃ m rest, moves = m :: rest := by
    cases moves with
    | nil => exact absurd rfl hmoves
    | cons m rest => exact ⟨m, rest, rfl⟩
  have hb : -89 ≤ (orbitMoveRun p (m :: rest)).beta ∧ (orbitMoveRun p (m :: rest)).beta ≤ 89 := by
    simp only [orbitMoveRun, List.foldl_cons]
    exact foldl_inv _
      (fun cur => -89 ≤ cur.beta ∧ cur.beta ≤ 89) rest (orbitMoveStep p m.1 m.2)
      (hstepmem p m) (fun a b _ => hstepmem a b)
  exact ⟨hb.1, hb.2, cos_pos_of_deg_bounds _ hb.1 hb.2⟩

/-- Witness for C5: starting from an out-of-range stored elevation of 200°
and feeding one huge delta, the resulting elevation is inside [-89, 89]. -/
theorem orbit_elevation_clamped_no_flip_witness :
    ([((0 : ℚ), (1000 : ℚ))] ≠ ([] : List (ℚ × ℚ))) ∧
    (-89 ≤ (orbitMoveRun (OrbitParams.mk 0 200 5 Vec3.zero) [((0 : ℚ), (1000 : ℚ))]).beta ∧
     (orbitMoveRun (OrbitParams.mk 0 200 5 Vec3.zero) [((0 : ℚ), (1000 : ℚ))]).beta ≤ 89 ∧
     0 < Real.cos
       (((orbitMoveRun (OrbitParams.mk 0 200 5 Vec3.zero) [((0 : ℚ), (1000 : ℚ))]).beta : ℝ)
         * Real.pi / 180)) :=
  ⟨by simp,
    orbit_elevation_clamped_no_flip (OrbitParams.mk 0 200 5 Vec3.zero)
      [((0 : ℚ), (1000 : ℚ))] (by simp)⟩

/- ------------------------------------------------------------------ -/
/- C9 — orbit radius epsilon guard                                     -/
/- ------------------------------------------------------------------ -/

/-- C9 (confirmed). When orbit parameters are derived and the selected
target has zero distance from the camera (camera position equals target
position, so the radius, whose square is the squared length of their
difference, is zero), the denominator of the elevation computation
`asin(vec.y / (radius || 0.001))` defaults to the epsilon 0.001; moreover
that denominator is nonzero for every radius, so the division never divides
by zero. -/
theorem orbit_beta_denom_epsilon (camPos targetPos : Vec3) (r : ℚ)
    (hr : r * r = Vec3.lengthSq (Vec3.sub camPos targetPos))
    (h0 : camPos = targetPos) :
    orbitBetaDenom r = 1 / 1000 ∧ ∀ s : ℚ, orbitBetaDenom s ≠ 0 := by
  subst h0
  rw [Vec3.sub_self] at hr
  have hz : Vec3.lengthSq Vec3.zero = 0 := by norm_num [Vec3.lengthSq, Vec3.dot, Vec3.zero]
  rw [hz] at hr
  have hr0 : r = 0 := mul_self_eq_zero.mp hr
  subst hr0
  constructor
  · simp [orbitBetaDenom, jsOrDefault]
  · intro s
    unfold orbitBetaDenom jsOrDefault
    split_ifs with h
    · norm_num
    · exact h

/-- Witness for C9 at camera and target both at the origin. -/
theorem orbit_beta_denom_epsilon_witness :
    ((0 : ℚ) * 0 = Vec3.lengthSq (Vec3.sub Vec3.zero Vec3.zero)) ∧
    (orbitBetaDenom 0 = 1 / 1000 ∧ ∀ s : ℚ, orbitBetaDenom s ≠ 0) :=
  ⟨by norm_num [Vec3.lengthSq, Vec3.dot, Vec3.sub, Vec3.zero],
    orbit_beta_denom_epsilon Vec3.zero Vec3.zero 0
      (by norm_num [Vec3.lengthSq, Vec3.dot, Vec3.sub, Vec3.zero]) rfl⟩

/- ------------------------------------------------------------------ -/
/- C4 — removing the selected character clears the selection           -/
/- ------------------------------------------------------------------ -/

/-- After `handleRemoveCharacter cid`, no character in the list carries the
id `cid`. -/
theorem contains_ids_removeChar (cid : String) (l : List Character) :
    ((handleRemoveCharacter cid l).map (fun c => c.id)).contains cid = false := by
  simp only [handleRemoveCharacter, List.contains, List.elem_eq_mem, decide_eq_false_iff_not]
  intro hmem
  obtain ⟨c, hc, hcid⟩ := List.mem_map.mp hmem
  have hpred := (List.mem_filter.mp hc).2
  rw [hcid] at hpred
  simp at hpred

/-- An element satisfying the filter predicate survives a `filter`. -/
theorem contains_filter_of_pred (cid : String) (ids : List String) (p : String → Bool)
    (hin : ids.contains cid = true) (hp : p cid = true) :
    (ids.filter p).contains cid = true := by
  simp only [List.contains, List.elem_eq_mem, decide_eq_true_eq] at hin ⊢
  exact List.mem_filter.mpr ⟨hin, hp⟩

/-- C4 (confirmed). For every registry state, removing the character entity
whose id is the currently selected character (the selection target kind is
`character` and `activeCharacterId` names a live entity) clears the
selection: after `handleRemoveCharacter` and the reconcile effect, the
active character id is `none` and the selection target is `none`. -/
theorem remove_selected_character_clears_selection
    (characters : List Character) (s : ViewerSelection) (cid : String)
    (hact : s.activeCharacterId = some cid)
    (hsel : s.selectedTarget = some TargetType.character)
    (hin : s.charEntityIds.contains cid = true) :
    (reconcileRemovals (handleRemoveCharacter cid characters) s).activeCharacterId = none ∧
    (reconcileRemovals (handleRemoveCharacter cid characters) s).selectedTarget = none := by
  have hout := contains_ids_removeChar cid characters
  have hrem : ((s.charEntityIds.filter
      (fun i =>
        !(((handleRemoveCharacter cid characters).map (fun c => c.id)).contains i))).contains cid)
      = true := by
    apply contains_filter_of_pred cid s.charEntityIds _ hin
    show (!(((handleRemoveCharacter cid characters).map (fun c => c.id)).contains cid)) = true
    rw [hout]
    rfl
  simp only [reconcileRemovals, hact, hsel, hrem]
  simp

/-- Witness for C4: one loaded character with id `c1`, selected; removing it
clears both selection fields. -/
theorem remove_selected_character_clears_selection_witness :
    ((ViewerSelection.mk ["c1"] (some "c1") (some TargetType.character)).activeCharacterId
      = some "c1") ∧
    ((ViewerSelection.mk ["c1"] (some "c1") (some TargetType.character)).selectedTarget
      = some TargetType.character) ∧
    ((ViewerSelection.mk ["c1"] (some "c1") (some TargetType.character)).charEntityIds.contains "c1"
      = true) ∧
    ((reconcileRemovals
        (handleRemoveCharacter "c1" [Character.mk "c1" CharKind.threeD "blob:model" "hero.glb"])
        (ViewerSelection.mk ["c1"] (some "c1") (some TargetType.character))).activeCharacterId
      = none ∧
     (reconcileRemovals
        (handleRemoveCharacter "c1" [Character.mk "c1" CharKind.threeD "blob:model" "hero.glb"])
        (ViewerSelection.mk ["c1"] (some "c1") (some TargetType.character))).selectedTarget
      = none) :=
  ⟨rfl, rfl, by decide,
    remove_selected_character_clears_selection
      [Character.mk "c1" CharKind.threeD "blob:model" "hero.glb"]
      (ViewerSelection.mk ["c1"] (some "c1") (some TargetType.character))
      "c1" rfl rfl (by decide)⟩

/- ------------------------------------------------------------------ -/
/- C2 — stale scene-upload completion                                  -/
/- ------------------------------------------------------------------ -/

/-- C2 (code bug, evaluated at the failing schedule). Uploads A (a slow
`.spz`) then B are requested; B's asynchronous load completes first and A's
completes second. Each completion runs the unguarded `setSplatUrl`
(App.tsx line 74), and the splat loader effect (lines 1673–1704) loads
whatever URL was set last with no staleness check, so the final visible
scene is A's, not B's: the superseded load's completion overwrites the
newer state instead of being ignored. -/
theorem stale_splat_completion_overwrites :
    (runSplatUploadCompletions (SceneLoadState.mk none none)
        ["blob:scene-B", "blob:scene-A"]).splatUrl = some "blob:scene-A" ∧
    (some "blob:scene-A" : Option String) ≠ some "blob:scene-B" := by
  constructor
  · rfl
  · decide

/- ------------------------------------------------------------------ -/
/- C3 — no second generation request while one is in flight            -/
/- ------------------------------------------------------------------ -/

/-- C3 (confirmed). While a generation request is in flight
(`isGenerating = true`), a submission attempt on the ControlPanel form
produces no `onGenerate` invocation — the submit button (the form's only
submit control) and the prompt input are disabled — so no second
outstanding `generateCharacterInScene` call can be started. -/
theorem generate_submit_blocked_while_generating (prompt : String) :
    attemptPanelSubmit true prompt = none := by
  simp [attemptPanelSubmit, submitDisabled]

/- ------------------------------------------------------------------ -/
/- C6 — capture failure aborts generation                              -/
/- ------------------------------------------------------------------ -/

/-- C6 (confirmed). Invoking generation when the scene capture returns
`none` aborts immediately: the error becomes `Failed to capture 3D scene.`,
the generating flag (false before the call) remains false, and no service
call is issued. -/
theorem generate_capture_failure_aborts (prompt : String) (prev : GenerationState)
    (hprev : prev.isGenerating = false) :
    (handleGenerate none prompt prev).1.error = some "Failed to capture 3D scene." ∧
    (handleGenerate none prompt prev).1.isGenerating = false ∧
    (handleGenerate none prompt prev).2 = none := by
  refine ⟨rfl, ?_, rfl⟩
  show prev.isGenerating = false
  exact hprev

/-- Witness for C6 on the idle generation state. -/
theorem generate_capture_failure_aborts_witness :
    ((GenerationState.mk false none none).isGenerating = false) ∧
    ((handleGenerate none "add a knight" (GenerationState.mk false none none)).1.error
        = some "Failed to capture 3D scene." ∧
     (handleGenerate none "add a knight" (GenerationState.mk false none none)).1.isGenerating
        = false ∧
     (handleGenerate none "add a knight" (GenerationState.mk false none none)).2 = none) :=
  ⟨rfl, generate_capture_failure_aborts "add a knight" (GenerationState.mk false none none) rfl⟩

/- ------------------------------------------------------------------ -/
/- C7 — malformed .spz archive                                         -/
/- ------------------------------------------------------------------ -/

/-- C7 (confirmed). Loading a `.spz` archive none of whose inner file names
ends in `.splat`, `.ksplat` or `.ply` fails with the descriptive error
message, and the scene URL is cleared so the viewport shows the no-scene
state and the upload can be retried. -/
theorem spz_without_scene_file_fails (names : List String) (innerUrl : String → String)
    (s : SceneLoadState)
    (h : ∀ n ∈ names,
      (strEndsWith (strToLower n) ".splat" || strEndsWith (strToLower n) ".ksplat" || strEndsWith (strToLower n) ".ply")
        = false) :
    handleUploadSplatSpz names innerUrl s =
      SceneLoadState.mk none
        (some "Failed to load file: No valid .splat or .ply file found inside SPZ archive") := by
  have h1 : names.find?
      (fun n => strEndsWith (strToLower n) ".splat" || strEndsWith (strToLower n) ".ksplat") = none := by
    rw [List.find?_eq_none]
    intro n hn
    have hh := h n hn
    rw [Bool.or_eq_false_iff, Bool.or_eq_false_iff] at hh
    simp [hh.1.1, hh.1.2]
  have h2 : names.find? (fun n => strEndsWith (strToLower n) ".ply") = none := by
    rw [List.find?_eq_none]
    intro n hn
    have hh := h n hn
    rw [Bool.or_eq_false_iff, Bool.or_eq_false_iff] at hh
    simp [hh.2]
  have hfind : findInnerFile names = none := by
    unfold findInnerFile
    rw [h1]
    exact h2
  cases s
  unfold handleUploadSplatSpz
  rw [hfind]

/-- Witness for C7: an archive holding only `notes.txt`. -/
theorem spz_without_scene_file_fails_witness :
    (∀ n ∈ ["notes.txt"],
      (strEndsWith (strToLower n) ".splat" || strEndsWith (strToLower n) ".ksplat" || strEndsWith (strToLower n) ".ply")
        = false) ∧
    handleUploadSplatSpz ["notes.txt"] (fun n => n) (SceneLoadState.mk none none) =
      SceneLoadState.mk none
        (some "Failed to load file: No valid .splat or .ply file found inside SPZ archive") :=
  ⟨by decide,
    spz_without_scene_file_fails ["notes.txt"] (fun n => n) (SceneLoadState.mk none none)
      (by decide)⟩

/- ------------------------------------------------------------------ -/
/- C10 — unrecognized character upload is silently ignored             -/
/- ------------------------------------------------------------------ -/

/-- C10 (confirmed). Uploading a character file that is neither a 3D model
(name ending `.glb`/`.gltf`, case-insensitively) nor an image (MIME type
starting with `image/`) is silently ignored: the character list is
unchanged and no error is surfaced. -/
theorem unrecognized_character_upload_ignored
    (f : UploadFile) (newId objUrl dataUrl : String) (characters : List Character)
    (h3 : (strEndsWith (strToLower f.name) ".glb" || strEndsWith (strToLower f.name) ".gltf") = false)
    (hImg : strStartsWith f.mime "image/" = false) :
    handleUploadCharacter f newId objUrl dataUrl characters = (characters, none) := by
  simp [handleUploadCharacter, h3, hImg]

/-- Witness for C10: uploading `notes.txt` of MIME type `text/plain`. -/
theorem unrecognized_character_upload_ignored_witness :
    ((strEndsWith (strToLower (UploadFile.mk "notes.txt" "text/plain").name) ".glb"
        || strEndsWith (strToLower (UploadFile.mk "notes.txt" "text/plain").name) ".gltf") = false) ∧
    (strStartsWith (UploadFile.mk "notes.txt" "text/plain").mime "image/" = false) ∧
    handleUploadCharacter (UploadFile.mk "notes.txt" "text/plain") "id1" "blob:obj" "data:img"
        [Character.mk "c1" CharKind.twoD "data:img" "sprite.png"]
      = ([Character.mk "c1" CharKind.twoD "data:img" "sprite.png"], none) :=
  ⟨by decide, by decide,
    unrecognized_character_upload_ignored (UploadFile.mk "notes.txt" "text/plain")
      "id1" "blob:obj" "data:img" [Character.mk "c1" CharKind.twoD "data:img" "sprite.png"]
      (by decide) (by decide)⟩

end Marble
